import Mathlib

/-!
Verification development for the aind-codeocean-api Python client.

The Python source under `src/aind_codeocean_api/` is shallowly embedded:
dataclasses become structures, JSON values become an inductive type,
HTTP interactions are modelled by explicit lists of server responses
consumed in call order, and exceptions become `Except`/`Option` results.
-/

namespace AindCodeocean

/-- JSON values as produced by `dataclasses.asdict` and consumed by the
`json` module.  Python `None` is `null`. -/
inductive JsonValue where
  | null
  | bool (b : Bool)
  | num (n : Int)
  | str (s : String)
  | arr (xs : List JsonValue)
  | obj (kvs : List (String × JsonValue))
  deriving Repr

/-- `value is None` test on embedded JSON values. -/
def JsonValue.isNull : JsonValue → Bool
  | .null => true
  | _ => false

mutual

/-- Embedding of `BasicRequest.__clean_nones` (models/basic_request.py):
recursively remove all `None` values from dictionaries and lists. -/
def clean_nones : JsonValue → JsonValue
  | .null => .null
  | .bool b => .bool b
  | .num n => .num n
  | .str s => .str s
  | .arr xs => .arr (cleanNonesList xs)
  | .obj kvs => .obj (cleanNonesObj kvs)

/-- `[self.__clean_nones(x) for x in value if x is not None]` -/
def cleanNonesList : List JsonValue → List JsonValue
  | [] => []
  | x :: xs =>
    if x.isNull then cleanNonesList xs
    else clean_nones x :: cleanNonesList xs

/-- `{key: self.__clean_nones(val) for key, val in value.items() if val is not None}` -/
def cleanNonesObj : List (String × JsonValue) → List (String × JsonValue)
  | [] => []
  | (k, v) :: kvs =>
    if v.isNull then cleanNonesObj kvs
    else (k, clean_nones v) :: cleanNonesObj kvs

end

mutual

/-- No `null` stands as a dictionary value or a list element, at any depth. -/
def nullFree : JsonValue → Bool
  | .arr xs => nullFreeList xs
  | .obj kvs => nullFreeObj kvs
  | _ => true

def nullFreeList : List JsonValue → Bool
  | [] => true
  | x :: xs => !x.isNull && nullFree x && nullFreeList xs

def nullFreeObj : List (String × JsonValue) → Bool
  | [] => true
  | (_, v) :: kvs => !v.isNull && nullFree v && nullFreeObj kvs

end

mutual

/-- Whether key `k` appears in some object anywhere in the tree. -/
def hasKey (k : String) : JsonValue → Bool
  | .arr xs => hasKeyList k xs
  | .obj kvs => hasKeyObj k kvs
  | _ => false

def hasKeyList (k : String) : List JsonValue → Bool
  | [] => false
  | x :: xs => hasKey k x || hasKeyList k xs

def hasKeyObj (k : String) : List (String × JsonValue) → Bool
  | [] => false
  | (k₀, v) :: kvs => (k₀ == k) || hasKey k v || hasKeyObj k kvs

end

theorem isNull_clean_nones {v : JsonValue} (h : v.isNull = false) :
    (clean_nones v).isNull = false := by
  cases v <;> simp_all [clean_nones, JsonValue.isNull]

mutual

theorem nullFree_clean_nones : ∀ v : JsonValue, nullFree (clean_nones v) = true
  | .null => rfl
  | .bool _ => rfl
  | .num _ => rfl
  | .str _ => rfl
  | .arr xs => by simp [clean_nones, nullFree, nullFreeList_cleanNonesList xs]
  | .obj kvs => by simp [clean_nones, nullFree, nullFreeObj_cleanNonesObj kvs]

theorem nullFreeList_cleanNonesList :
    ∀ xs : List JsonValue, nullFreeList (cleanNonesList xs) = true
  | [] => rfl
  | x :: xs => by
    by_cases hx : x.isNull = true
    · simp [cleanNonesList, hx, nullFreeList_cleanNonesList xs]
    · simp only [Bool.not_eq_true] at hx
      simp [cleanNonesList, hx, nullFreeList, isNull_clean_nones hx,
        nullFree_clean_nones x, nullFreeList_cleanNonesList xs]

theorem nullFreeObj_cleanNonesObj :
    ∀ kvs : List (String × JsonValue), nullFreeObj (cleanNonesObj kvs) = true
  | [] => rfl
  | (k, v) :: kvs => by
    by_cases hv : v.isNull = true
    · simp [cleanNonesObj, hv, nullFreeObj_cleanNonesObj kvs]
    · simp only [Bool.not_eq_true] at hv
      simp [cleanNonesObj, hv, nullFreeObj, isNull_clean_nones hv,
        nullFree_clean_nones v, nullFreeObj_cleanNonesObj kvs]

end

mutual

/-- `json.dumps` with its default separators. -/
def dumps : JsonValue → String
  | .null => "null"
  | .bool b => if b then "true" else "false"
  | .num n => toString n
  | .str s => "\"" ++ s ++ "\""
  | .arr xs => "[" ++ dumpsList xs ++ "]"
  | .obj kvs => "\x7b" ++ dumpsObj kvs ++ "\x7d"

def dumpsList : List JsonValue → String
  | [] => ""
  | [x] => dumps x
  | x :: y :: xs => dumps x ++ ", " ++ dumpsList (y :: xs)

def dumpsObj : List (String × JsonValue) → String
  | [] => ""
  | [(k, v)] => "\"" ++ k ++ "\": " ++ dumps v
  | (k, v) :: kv :: kvs => "\"" ++ k ++ "\": " ++ dumps v ++ ", " ++ dumpsObj (kv :: kvs)

end

/-- `dataclasses.asdict` of an optional nested value: `None` becomes `null`. -/
def optJson {α : Type} (f : α → JsonValue) : Option α → JsonValue
  | none => .null
  | some a => f a

def optStrJson : Option String → JsonValue := optJson .str

def optBoolJson : Option Bool → JsonValue := optJson .bool

def optIntJson : Option Int → JsonValue := optJson .num

/-- `Sources.AWS` (models/data_assets_requests.py).  The Python field
`prefix` is a Lean keyword, so the Lean field is `pfx`; its JSON key stays
`"prefix"` in `asdict`. -/
structure SourcesAWS where
  bucket : String
  pfx : Option String := none
  keep_on_external_storage : Option Bool := none
  public : Option Bool := none

/-- `Sources.GCP` (models/data_assets_requests.py). -/
structure SourcesGCP where
  bucket : String
  pfx : Option String := none
  client_id : Option String := none
  client_secret : Option String := none

/-- `Sources.Computation` (models/data_assets_requests.py). -/
structure SourcesComputation where
  id : String
  path : Option String := none

/-- `Source` dataclass fields (models/data_assets_requests.py). -/
structure Source where
  aws : Option SourcesAWS := none
  gcp : Option SourcesGCP := none
  computation : Option SourcesComputation := none

/-- `Targets.AWS` (models/data_assets_requests.py). -/
structure TargetsAWS where
  bucket : String
  pfx : Option String := none

/-- `Target` (models/data_assets_requests.py). -/
structure Target where
  aws : TargetsAWS

/-- `CreateDataAssetRequest` (models/data_assets_requests.py).
`custom_metadata : Dict[str, Any]` is embedded as a key/value list. -/
structure CreateDataAssetRequest where
  name : String
  tags : List String
  mount : String
  description : Option String := none
  source : Option Source := none
  target : Option Target := none
  custom_metadata : Option (List (String × JsonValue)) := none

def SourcesAWS.asdict (s : SourcesAWS) : JsonValue :=
  .obj [("bucket", .str s.bucket), ("prefix", optStrJson s.pfx),
    ("keep_on_external_storage", optBoolJson s.keep_on_external_storage),
    ("public", optBoolJson s.public)]

def SourcesGCP.asdict (s : SourcesGCP) : JsonValue :=
  .obj [("bucket", .str s.bucket), ("prefix", optStrJson s.pfx),
    ("client_id", optStrJson s.client_id),
    ("client_secret", optStrJson s.client_secret)]

def SourcesComputation.asdict (s : SourcesComputation) : JsonValue :=
  .obj [("id", .str s.id), ("path", optStrJson s.path)]

def Source.asdict (s : Source) : JsonValue :=
  .obj [("aws", optJson SourcesAWS.asdict s.aws),
    ("gcp", optJson SourcesGCP.asdict s.gcp),
    ("computation", optJson SourcesComputation.asdict s.computation)]

def TargetsAWS.asdict (t : TargetsAWS) : JsonValue :=
  .obj [("bucket", .str t.bucket), ("prefix", optStrJson t.pfx)]

def Target.asdict (t : Target) : JsonValue :=
  .obj [("aws", t.aws.asdict)]

def CreateDataAssetRequest.asdict (r : CreateDataAssetRequest) : JsonValue :=
  .obj [("name", .str r.name),
    ("tags", .arr (r.tags.map JsonValue.str)),
    ("mount", .str r.mount),
    ("description", optStrJson r.description),
    ("source", optJson Source.asdict r.source),
    ("target", optJson Target.asdict r.target),
    ("custom_metadata", optJson JsonValue.obj r.custom_metadata)]

/-- `ComputationDataAsset` (models/computations_requests.py). -/
structure ComputationDataAsset where
  id : String
  mount : String

/-- `ComputationNamedParameter` (models/computations_requests.py). -/
structure ComputationNamedParameter where
  param_name : String
  value : String

/-- `ComputationProcess` (models/computations_requests.py). -/
structure ComputationProcess where
  name : String
  parameters : Option (List String) := none
  named_parameters : Option (List ComputationNamedParameter) := none

/-- `RunCapsuleRequest` (models/computations_requests.py). -/
structure RunCapsuleRequest where
  capsule_id : Option String := none
  pipeline_id : Option String := none
  version : Option Int := none
  resume_run_id : Option String := none
  data_assets : Option (List ComputationDataAsset) := none
  parameters : Option (List String) := none
  named_parameters : Option (List ComputationNamedParameter) := none
  processes : Option (List ComputationProcess) := none

def ComputationDataAsset.asdict (d : ComputationDataAsset) : JsonValue :=
  .obj [("id", .str d.id), ("mount", .str d.mount)]

def ComputationNamedParameter.asdict (p : ComputationNamedParameter) : JsonValue :=
  .obj [("param_name", .str p.param_name), ("value", .str p.value)]

def ComputationProcess.asdict (p : ComputationProcess) : JsonValue :=
  .obj [("name", .str p.name),
    ("parameters", optJson (fun xs => .arr (xs.map JsonValue.str)) p.parameters),
    ("named_parameters",
      optJson (fun xs => .arr (xs.map ComputationNamedParameter.asdict))
        p.named_parameters)]

def RunCapsuleRequest.asdict (r : RunCapsuleRequest) : JsonValue :=
  .obj [("capsule_id", optStrJson r.capsule_id),
    ("pipeline_id", optStrJson r.pipeline_id),
    ("version", optIntJson r.version),
    ("resume_run_id", optStrJson r.resume_run_id),
    ("data_assets",
      optJson (fun xs => .arr (xs.map ComputationDataAsset.asdict)) r.data_assets),
    ("parameters", optJson (fun xs => .arr (xs.map JsonValue.str)) r.parameters),
    ("named_parameters",
      optJson (fun xs => .arr (xs.map ComputationNamedParameter.asdict))
        r.named_parameters),
    ("processes",
      optJson (fun xs => .arr (xs.map ComputationProcess.asdict)) r.processes)]

/-- The cleaned JSON tree rendered by `BasicRequest.json_string`. -/
def CreateDataAssetRequest.json_tree (r : CreateDataAssetRequest) : JsonValue :=
  clean_nones r.asdict

/-- `BasicRequest.json_string` for `CreateDataAssetRequest`:
`json.dumps(self.__clean_nones(asdict(self)))`. -/
def CreateDataAssetRequest.json_string (r : CreateDataAssetRequest) : String :=
  dumps r.json_tree

/-- The cleaned JSON tree rendered by `BasicRequest.json_string`. -/
def RunCapsuleRequest.json_tree (r : RunCapsuleRequest) : JsonValue :=
  clean_nones r.asdict

/-- `BasicRequest.json_string` for `RunCapsuleRequest`. -/
def RunCapsuleRequest.json_string (r : RunCapsuleRequest) : String :=
  dumps r.json_tree

/-- A `CreateDataAssetRequest` whose `Source` has only the aws arm populated,
with an empty tag list and an empty-string description. -/
def exampleCreateRequest : CreateDataAssetRequest :=
  { name := "ex", tags := [], mount := "ex_mount", description := some "",
    source := some { aws := some { bucket := "ex_bucket" } } }

/-- Claim C3: rendering a request payload model (`CreateDataAssetRequest` or
`RunCapsuleRequest`) to its JSON string recursively removes, at every nesting
depth in maps and lists, every key whose value is absent (`None`), while keys
set to an empty list or empty string are kept with that empty value; a
`Source` with only the aws arm populated serializes with no `gcp` or
`computation` key anywhere in the tree. -/
theorem C3_json_rendering_strips_absent_keeps_empty :
    (∀ r : CreateDataAssetRequest, nullFree r.json_tree = true)
    ∧ (∀ r : RunCapsuleRequest, nullFree r.json_tree = true)
    ∧ hasKey "gcp" exampleCreateRequest.json_tree = false
    ∧ hasKey "computation" exampleCreateRequest.json_tree = false
    ∧ hasKey "aws" exampleCreateRequest.json_tree = true
    ∧ hasKey "tags" exampleCreateRequest.json_tree = true
    ∧ hasKey "description" exampleCreateRequest.json_tree = true
    ∧ exampleCreateRequest.json_string =
        "\x7b\"name\": \"ex\", \"tags\": [], \"mount\": \"ex_mount\", " ++
        "\"description\": \"\", \"source\": " ++
        "\x7b\"aws\": \x7b\"bucket\": \"ex_bucket\"\x7d\x7d\x7d" :=
  ⟨fun r => nullFree_clean_nones r.asdict,
   fun r => nullFree_clean_nones r.asdict,
   by decide, by decide, by decide, by decide, by decide, by decide⟩

/-- `CodeOceanClient._MAX_SEARCH_BATCH_REQUEST` (codeocean.py). -/
def MAX_SEARCH_BATCH_REQUEST : Nat := 1000

/-- A 200-status page body returned by the search endpoint: the `has_more`
flag and the `results` list. -/
structure SearchPage (α : Type) where
  has_more : Bool
  results : List α

/-- Embedding of the `while has_more` loop of
`CodeOceanClient._paginate_data_assets` (codeocean.py lines 295-309), run
against a mocked server that answers the i-th request with `pages[i]` (all
with status 200).  Returns the `(start, limit)` query parameters of the
requests made, and the result pages yielded, in order. -/
def paginate_data_assets {α : Type} :
    List (SearchPage α) → Nat → List (Nat × Nat) × List (List α)
  | [], _ => ([], [])
  | page :: rest, start_index =>
    let num_of_results := page.results.length
    let has_more := if num_of_results > 0 then page.has_more else false
    if has_more then
      let r := paginate_data_assets rest (start_index + num_of_results)
      ((start_index, MAX_SEARCH_BATCH_REQUEST) :: r.1, page.results :: r.2)
    else
      ([(start_index, MAX_SEARCH_BATCH_REQUEST)], [page.results])

/-- The synthetic response assembled by `search_all_data_assets`. -/
structure HttpResponse where
  status_code : Nat
  body : JsonValue

/-- Embedding of `CodeOceanClient.search_all_data_assets` (codeocean.py lines
349-367) against a mocked server: concatenates all yielded pages and wraps
them in a synthetic 200 response whose body is the object
`\x7b"results": [...]\x7d`. -/
def search_all_data_assets (pages : List (SearchPage JsonValue)) : HttpResponse :=
  let all_results := (paginate_data_assets pages 0).2.flatten
  { status_code := 200, body := .obj [("results", .arr all_results)] }

/-- Spec-side: a page is terminal when the server reports `has_more` false or
the page has zero results. -/
def isTerminalPage {α : Type} (p : SearchPage α) : Bool :=
  !p.has_more || p.results.isEmpty

/-- Spec-side: the pages the client consumes, up to and including the first
terminal page. -/
def specConsumedPages {α : Type} : List (SearchPage α) → List (SearchPage α)
  | [] => []
  | p :: rest => if isTerminalPage p then [p] else p :: specConsumedPages rest

/-- Spec-side: the `(offset, limit)` pairs of the requests made for the given
pages: offsets start at `start` and advance by each page's result count, and
the limit is the fixed page size 1000. -/
def specCalls {α : Type} : List (SearchPage α) → Nat → List (Nat × Nat)
  | [], _ => []
  | p :: rest, start =>
    (start, 1000) :: specCalls rest (start + p.results.length)

theorem paginate_eq_specConsumed {α : Type} (pages : List (SearchPage α))
    (start : Nat) (h : ∃ p ∈ pages, isTerminalPage p = true) :
    paginate_data_assets pages start =
      (specCalls (specConsumedPages pages) start,
        (specConsumedPages pages).map SearchPage.results) := by
  induction pages generalizing start with
  | nil => simp at h
  | cons p rest ih =>
    by_cases hterm : isTerminalPage p = true
    · have hm : (if p.results.length > 0 then p.has_more else false) = false := by
        simp only [isTerminalPage, Bool.or_eq_true, Bool.not_eq_true',
          List.isEmpty_iff] at hterm
        rcases hterm with hfalse | hempty
        · split <;> simp [hfalse]
        · simp [hempty]
      simp [paginate_data_assets, hm, specConsumedPages, hterm, specCalls,
        MAX_SEARCH_BATCH_REQUEST]
    · have hmore : p.has_more = true := by
        simp only [isTerminalPage, Bool.or_eq_true, Bool.not_eq_true',
          List.isEmpty_iff] at hterm
        push_neg at hterm
        simpa using hterm.1
      have hnonempty : p.results.length > 0 := by
        simp only [isTerminalPage, Bool.or_eq_true, Bool.not_eq_true',
          List.isEmpty_iff] at hterm
        push_neg at hterm
        exact List.length_pos.mpr hterm.2
      have hm : (if p.results.length > 0 then p.has_more else false) = true := by
        simp [hnonempty, hmore]
      have hrest : ∃ q ∈ rest, isTerminalPage q = true := by
        rcases h with ⟨q, hq, hqterm⟩
        rcases List.mem_cons.mp hq with rfl | hq₂
        · exact absurd hqterm hterm
        · exact ⟨q, hq₂, hqterm⟩
      simp [paginate_data_assets, hm, specConsumedPages, hterm, specCalls,
        MAX_SEARCH_BATCH_REQUEST, ih _ hrest]

/-- Claim C1: for every mocked sequence of 200-status search pages,
`search_all_data_assets` requests pages starting at offset 0 with limit 1000,
advances the offset by the number of results received on each page, stops as
soon as a page reports `has_more` false or returns zero results, and returns
a single synthetic 200 response whose body holds exactly the concatenation of
all consumed pages' result lists in encounter order; in particular, for page
1 with `has_more` true and results `[A, B]` and page 2 with `has_more` false
and results `[C, D]`, it makes exactly two underlying calls, at offsets 0 and
2, and returns body with results `[A, B, C, D]`. -/
theorem C1_search_all_data_assets_pagination {α : Type}
    (pages : List (SearchPage α))
    (h : ∃ p ∈ pages, isTerminalPage p = true) :
    (paginate_data_assets pages 0 =
      (specCalls (specConsumedPages pages) 0,
        (specConsumedPages pages).map SearchPage.results))
    ∧ (∀ A B C D : JsonValue,
        search_all_data_assets [⟨true, [A, B]⟩, ⟨false, [C, D]⟩] =
          { status_code := 200, body := .obj [("results", .arr [A, B, C, D])] }
        ∧ (paginate_data_assets
            [(⟨true, [A, B]⟩ : SearchPage JsonValue), ⟨false, [C, D]⟩] 0).1 =
          [(0, 1000), (2, 1000)]) :=
  ⟨paginate_eq_specConsumed pages 0 h, fun _ _ _ _ => ⟨rfl, rfl⟩⟩

/-- Witness for C1 at a concrete two-page mock. -/
theorem C1_search_all_data_assets_pagination_witness :
    (∃ p ∈ ([⟨true, [JsonValue.num 1, JsonValue.num 2]⟩, ⟨false, [JsonValue.num 3]⟩] :
        List (SearchPage JsonValue)), isTerminalPage p = true)
    ∧ paginate_data_assets
        ([⟨true, [JsonValue.num 1, JsonValue.num 2]⟩, ⟨false, [JsonValue.num 3]⟩] :
          List (SearchPage JsonValue)) 0 =
      (specCalls (specConsumedPages
          [⟨true, [JsonValue.num 1, JsonValue.num 2]⟩, ⟨false, [JsonValue.num 3]⟩]) 0,
        (specConsumedPages
          [⟨true, [JsonValue.num 1, JsonValue.num 2]⟩,
            ⟨false, [JsonValue.num 3]⟩]).map SearchPage.results) :=
  ⟨by decide,
    (C1_search_all_data_assets_pagination
      [⟨true, [JsonValue.num 1, JsonValue.num 2]⟩, ⟨false, [JsonValue.num 3]⟩]
      (by decide)).1⟩

/-- A raw HTTP response to one page request: the status code and, for status
200, the parsed body. -/
structure PageResponse (α : Type) where
  status_code : Nat
  body : α

/-- The retry `while` loop of `get_page` (codeocean.py lines 276-293), run
against a mocked list of responses consumed in order: given the retry
counter, the current response and the remaining mocked responses, returns
`(sleep durations, total requests made, result)`, where the result carries
the page body on success and, for the `ConnectionError` raise, the last
status code.  `none` means the mock ran out of responses. -/
def get_page_loop {α : Type} (max_retries : Nat) :
    List (PageResponse α) → Nat → PageResponse α →
    Option (List Nat × Nat × Except Nat α)
  | [], retry, rsp =>
    if retry ≤ max_retries ∧ rsp.status_code ≠ 200 then none
    else if rsp.status_code = 200 then some ([], 1, Except.ok rsp.body)
    else some ([], 1, Except.error rsp.status_code)
  | next :: rest₂, retry, rsp =>
    if retry ≤ max_retries ∧ rsp.status_code ≠ 200 then
      match get_page_loop max_retries rest₂ (retry + 1) next with
      | none => none
      | some (sleeps, reqs, res) =>
        some (min (retry ^ 2) 15 :: sleeps, reqs + 1, res)
    else if rsp.status_code = 200 then some ([], 1, Except.ok rsp.body)
    else some ([], 1, Except.error rsp.status_code)

/-- Embedding of `get_page` (codeocean.py lines 250-293) against a mocked
list of responses: the first response answers the initial request; on a
non-200 status the retry loop consumes further responses. -/
def get_page {α : Type} (responses : List (PageResponse α))
    (max_retries : Nat := 3) : Option (List Nat × Nat × Except Nat α) :=
  match responses with
  | [] => none
  | rsp :: rest =>
    if rsp.status_code = 200 then some ([], 1, Except.ok rsp.body)
    else get_page_loop max_retries rest 1 rsp

theorem get_page_loop_exhausted {α : Type} (max_retries retry : Nat)
    (rsp : PageResponse α) (rest : List (PageResponse α))
    (h : ¬ retry ≤ max_retries) :
    get_page_loop max_retries rest retry rsp =
      if rsp.status_code = 200 then some ([], 1, Except.ok rsp.body)
      else some ([], 1, Except.error rsp.status_code) := by
  cases rest <;> simp [get_page_loop, h]

/-- Claim C2: when a page request returns a non-200 status, `get_page`
retries up to 3 times, sleeping `min(retry_count ** 2, 15)` seconds before
each retry with the counter starting at 1 (sleeps 1s, 4s, 9s), and when the
3rd retry still returns non-200 it raises a ConnectionError carrying the last
status code after exactly 4 failed attempts; a page whose first request
returns 200 triggers no sleep and no retry. -/
theorem C2_get_page_retry_backoff {α : Type}
    (r0 r1 r2 r3 : PageResponse α) (rest : List (PageResponse α))
    (h0 : r0.status_code ≠ 200) (h1 : r1.status_code ≠ 200)
    (h2 : r2.status_code ≠ 200) (h3 : r3.status_code ≠ 200) :
    get_page (r0 :: r1 :: r2 :: r3 :: rest) 3 =
      some ([1, 4, 9], 4, Except.error r3.status_code)
    ∧ (∀ (ok : PageResponse α) (more : List (PageResponse α)),
        ok.status_code = 200 →
        get_page (ok :: more) 3 = some ([], 1, Except.ok ok.body)) := by
  constructor
  · simp [get_page, get_page_loop, h0, h1, h2, h3]
    rw [get_page_loop_exhausted 3 4 r3 rest (by norm_num)]
    simp [h3]
  · intro ok more hok
    simp [get_page, hok]

/-- Witness for C2: four straight 500 responses produce sleeps 1s, 4s, 9s,
four requests, and a ConnectionError carrying status 500. -/
theorem C2_get_page_retry_backoff_witness :
    ((500 : Nat) ≠ 200)
    ∧ get_page
        [(⟨500, 0⟩ : PageResponse Nat), ⟨500, 0⟩, ⟨500, 0⟩, ⟨500, 0⟩] 3 =
      some ([1, 4, 9], 4, Except.error 500) :=
  ⟨by decide,
    (C2_get_page_retry_backoff (α := Nat) ⟨500, 0⟩ ⟨500, 0⟩ ⟨500, 0⟩ ⟨500, 0⟩ []
      (by decide) (by decide) (by decide) (by decide)).1⟩

/-- `Source` dataclass construction combined with `Source.__post_init__`
(models/data_assets_requests.py lines 39-53): the `None` arms are counted
and `Exception("At least one source is required")` is raised when all three
are `None`. -/
def mkSource (aws : Option SourcesAWS) (gcp : Option SourcesGCP)
    (computation : Option SourcesComputation) : Except String Source :=
  let nones := (if aws.isNone then 1 else 0) + (if gcp.isNone then 1 else 0)
    + (if computation.isNone then 1 else 0)
  if nones = 3 then Except.error "At least one source is required"
  else Except.ok { aws := aws, gcp := gcp, computation := computation }

/-- Number of populated (non-absent) arms of a `Source`. -/
def Source.populatedArms (s : Source) : Nat :=
  (if s.aws.isSome then 1 else 0) + (if s.gcp.isSome then 1 else 0)
    + (if s.computation.isSome then 1 else 0)

/-- Claim C7: constructing a `Source` with all three of aws, gcp and
computation absent raises the missing-source error in the post-construction
validation hook, and constructing with any single one of the three arms
present succeeds. -/
theorem C7_source_missing_all_arms_raises :
    mkSource none none none = Except.error "At least one source is required"
    ∧ (∀ a : SourcesAWS, mkSource (some a) none none =
        Except.ok { aws := some a, gcp := none, computation := none })
    ∧ (∀ g : SourcesGCP, mkSource none (some g) none =
        Except.ok { aws := none, gcp := some g, computation := none })
    ∧ (∀ c : SourcesComputation, mkSource none none (some c) =
        Except.ok { aws := none, gcp := none, computation := some c }) :=
  ⟨rfl, fun _ => rfl, fun _ => rfl, fun _ => rfl⟩

/-- Counterexample to claim C8: construction accepts a `Source` with two
arms simultaneously populated, so a successfully constructed `Source` need
not have exactly one populated arm. -/
theorem C8_counterexample_two_arms_accepted :
    mkSource (some { bucket := "b1" }) (some { bucket := "b2" }) none =
      Except.ok
        { aws := some { bucket := "b1" },
          gcp := some { bucket := "b2" }, computation := none }
    ∧ Source.populatedArms
        { aws := some { bucket := "b1" },
          gcp := some { bucket := "b2" }, computation := none } = 2 :=
  ⟨rfl, rfl⟩

/-- Claim C8 as amended: every successfully constructed `Source` has at
least one of its three arms populated; construction never yields a `Source`
with all arms absent. -/
theorem C8_amended_source_at_least_one_arm (aws : Option SourcesAWS)
    (gcp : Option SourcesGCP) (computation : Option SourcesComputation)
    (s : Source) (h : mkSource aws gcp computation = Except.ok s) :
    1 ≤ s.populatedArms := by
  cases aws <;> cases gcp <;> cases computation <;>
    simp_all [mkSource, Source.populatedArms] <;> simp [← h, Source.populatedArms]

/-- Witness for the amended C8 at a concrete aws-only `Source`. -/
theorem C8_amended_source_at_least_one_arm_witness :
    mkSource (some { bucket := "b" }) none none =
      Except.ok
        { aws := some { bucket := "b" }, gcp := none,
          computation := none }
    ∧ 1 ≤ Source.populatedArms
        { aws := some { bucket := "b" }, gcp := none,
          computation := none } :=
  ⟨rfl, C8_amended_source_at_least_one_arm (some { bucket := "b" }) none none _ rfl⟩

/-- Embedding of the request body built by
`CodeOceanClient.update_data_asset` (codeocean.py lines 398-447): `name` is
always present; each optional field is appended only when its argument is
truthy (`if new_description:`, `if new_tags:`, `if new_mount:`,
`if new_custom_metadata:`), so `None` and empty values are both skipped. -/
def update_data_asset_body (new_name : String)
    (new_description : Option String) (new_tags : Option (List String))
    (new_mount : Option String)
    (new_custom_metadata : Option (List (String × JsonValue))) :
    List (String × JsonValue) :=
  let data₀ := [("name", JsonValue.str new_name)]
  let data₁ := match new_description with
    | some d => if d.isEmpty then data₀
        else data₀ ++ [("description", JsonValue.str d)]
    | none => data₀
  let data₂ := match new_tags with
    | some t => if t.isEmpty then data₁
        else data₁ ++ [("tags", JsonValue.arr (t.map JsonValue.str))]
    | none => data₁
  let data₃ := match new_mount with
    | some m => if m.isEmpty then data₂
        else data₂ ++ [("mount", JsonValue.str m)]
    | none => data₂
  match new_custom_metadata with
  | some cm => if cm.isEmpty then data₃
      else data₃ ++ [("custom_metadata", JsonValue.obj cm)]
  | none => data₃

/-- Counterexample to claim C6: a tags argument supplied as the empty list
is non-absent, yet the body omits the `tags` key entirely, because the code
tests Python truthiness rather than presence. -/
theorem C6_counterexample_supplied_empty_tags_omitted :
    update_data_asset_body "new" none (some []) none none =
      [("name", JsonValue.str "new")]
    ∧ (update_data_asset_body "new" none (some []) none none).lookup "tags" =
        none :=
  ⟨rfl, rfl⟩

/-- Claim C6 as amended: the PUT body contains the required `name` key, plus
exactly those of the keys description, tags, mount, custom_metadata whose
argument was supplied with a truthy value (non-absent and non-empty); an
argument left absent or supplied empty is omitted entirely (never sent as
null); in particular, supplying only `new_name` produces exactly
`[("name", ...)]`. -/
theorem C6_amended_update_data_asset_body (new_name : String)
    (new_description : Option String) (new_tags : Option (List String))
    (new_mount : Option String)
    (new_custom_metadata : Option (List (String × JsonValue))) :
    (update_data_asset_body new_name new_description new_tags new_mount
        new_custom_metadata).lookup "name" = some (JsonValue.str new_name)
    ∧ (update_data_asset_body new_name new_description new_tags new_mount
        new_custom_metadata).lookup "description" =
        (match new_description with
          | some d => if d.isEmpty then none else some (JsonValue.str d)
          | none => none)
    ∧ (update_data_asset_body new_name new_description new_tags new_mount
        new_custom_metadata).lookup "tags" =
        (match new_tags with
          | some t => if t.isEmpty then none
              else some (JsonValue.arr (t.map JsonValue.str))
          | none => none)
    ∧ (update_data_asset_body new_name new_description new_tags new_mount
        new_custom_metadata).lookup "mount" =
        (match new_mount with
          | some m => if m.isEmpty then none else some (JsonValue.str m)
          | none => none)
    ∧ (update_data_asset_body new_name new_description new_tags new_mount
        new_custom_metadata).lookup "custom_metadata" =
        (match new_custom_metadata with
          | some cm => if cm.isEmpty then none else some (JsonValue.obj cm)
          | none => none)
    ∧ update_data_asset_body new_name none none none none =
        [("name", JsonValue.str new_name)] := by
  rcases new_description with _ | d <;> rcases new_tags with _ | t <;>
    rcases new_mount with _ | m <;> rcases new_custom_metadata with _ | cm <;>
    simp only [update_data_asset_body] <;>
    (repeat' split) <;> simp_all [List.lookup]

/-- Embedding of the request body built by
`CodeOceanClient.update_permissions` (codeocean.py lines 595-639): `users`
and `groups` default to the empty list when not supplied, and `everyone` is
added only when it `is not None`. -/
def update_permissions_body (users : Option (List JsonValue))
    (groups : Option (List JsonValue)) (everyone : Option String) :
    List (String × JsonValue) :=
  let users := match users with | none => [] | some u => u
  let groups := match groups with | none => [] | some g => g
  let permissions :=
    [("users", JsonValue.arr users), ("groups", JsonValue.arr groups)]
  match everyone with
  | some e => permissions ++ [("everyone", JsonValue.str e)]
  | none => permissions

/-- Claim C9: the POST body of update_permissions contains a `users` key and
a `groups` key, each defaulting to the empty list when the argument is not
supplied, and contains the `everyone` key if and only if the `everyone`
argument was explicitly supplied, in which case it carries exactly the
supplied value, e.g. `"viewer"`. -/
theorem C9_update_permissions_body_defaults
    (users groups : Option (List JsonValue)) (everyone : Option String) :
    (update_permissions_body users groups everyone).lookup "users" =
      some (JsonValue.arr (users.getD []))
    ∧ (update_permissions_body users groups everyone).lookup "groups" =
      some (JsonValue.arr (groups.getD []))
    ∧ (update_permissions_body users groups everyone).lookup "everyone" =
      everyone.map JsonValue.str
    ∧ update_permissions_body none none none =
      [("users", JsonValue.arr []), ("groups", JsonValue.arr [])]
    ∧ update_permissions_body none none (some "viewer") =
      [("users", JsonValue.arr []), ("groups", JsonValue.arr []),
        ("everyone", JsonValue.str "viewer")] := by
  rcases users with _ | u <;> rcases groups with _ | g <;>
    rcases everyone with _ | e <;> simp [update_permissions_body, List.lookup]

/-- The character test of Python `str.strip("/")`. -/
def isSlash (c : Char) : Bool := c == '/'

/-- `v.strip("/")` as applied by the `_strip_trailing_slash` field validator
(credentials.py lines 202-207): remove leading and trailing slashes. -/
def stripSlashes (s : String) : String :=
  String.mk (((s.data.dropWhile isSlash).reverse.dropWhile isSlash).reverse)

theorem stringData_mk (l : List Char) : (String.mk l).data = l := rfl

theorem dropWhile_dropWhile {α : Type} (p : α → Bool) (l : List α) :
    (l.dropWhile p).dropWhile p = l.dropWhile p := by
  induction l with
  | nil => simp
  | cons a t ih =>
    by_cases hp : p a = true
    · simpa [List.dropWhile_cons, hp] using ih
    · simp [List.dropWhile_cons, hp]

theorem dropWhile_length_le {α : Type} (p : α → Bool) (l : List α) :
    (l.dropWhile p).length ≤ l.length := by
  induction l with
  | nil => simp
  | cons a t ih =>
    by_cases hp : p a = true
    · simp only [List.dropWhile_cons, hp, if_pos]
      exact Nat.le_succ_of_le ih
    · simp [List.dropWhile_cons, hp]

theorem dropWhile_strip_aux {α : Type} (p : α → Bool) (l : List α) :
    (((l.dropWhile p).reverse.dropWhile p).reverse).dropWhile p =
      ((l.dropWhile p).reverse.dropWhile p).reverse := by
  rcases hcase : ((l.dropWhile p).reverse.dropWhile p).reverse with _ | ⟨a, u₂⟩
  · simp
  · have hsplit : l.dropWhile p =
        ((l.dropWhile p).reverse.dropWhile p).reverse ++
          ((l.dropWhile p).reverse.takeWhile p).reverse := by
      conv_lhs => rw [← List.reverse_reverse (l.dropWhile p),
        ← List.takeWhile_append_dropWhile p (l.dropWhile p).reverse,
        List.reverse_append]
    rw [hcase] at hsplit
    have hsplit₂ : l.dropWhile p =
        a :: (u₂ ++ ((l.dropWhile p).reverse.takeWhile p).reverse) := by
      simpa using hsplit
    have hidem := dropWhile_dropWhile p l
    rw [hsplit₂] at hidem
    by_cases hpa : p a = true
    · rw [List.dropWhile_cons, if_pos hpa] at hidem
      have hlen := dropWhile_length_le p
        (u₂ ++ ((l.dropWhile p).reverse.takeWhile p).reverse)
      rw [hidem] at hlen
      simp at hlen
    · simp [List.dropWhile_cons, hpa]

theorem stripSlashes_idem (s : String) :
    stripSlashes (stripSlashes s) = stripSlashes s := by
  unfold stripSlashes
  rw [stringData_mk, dropWhile_strip_aux isSlash s.data, List.reverse_reverse,
    dropWhile_dropWhile isSlash (s.data.dropWhile isSlash).reverse]

/-- Constructor keyword arguments of `CodeOceanCredentials`; an absent field
is a keyword argument that was not passed. -/
structure InitKwargs where
  aws_secrets_name : Option String := none
  config_file : Option String := none
  domain : Option String := none
  token : Option String := none

/-- The `CODEOCEAN_`-prefixed process environment variables read by the
environment settings source. -/
structure Env where
  codeocean_domain : Option String := none
  codeocean_token : Option String := none

/-- Parsed contents of a credentials JSON file or AWS secret: the keys
`domain` and `token`, each possibly missing. -/
structure CredFile where
  domain : Option String := none
  token : Option String := none
  deriving Repr, DecidableEq

/-- The default config file location
`Path(os.path.expanduser("~")) / ".codeocean" / "credentials.json"`. -/
def default_config_path : String := "~/.codeocean/credentials.json"

/-- The files and AWS secrets visible to the process. -/
structure FileSystem where
  files : List (String × CredFile) := []
  aws_secrets : List (String × CredFile) := []

/-- The per-field values one settings source offers (`__call__` in
`JsonConfigSettingsSource` omits fields whose value is `None`). -/
structure SourceValues where
  domain : Option String := none
  token : Option String := none

/-- `InitSettingsSource`: the explicit constructor arguments. -/
def initSource (init : InitKwargs) : SourceValues :=
  { domain := init.domain, token := init.token }

/-- `EnvSettingsSource` with prefix `CODEOCEAN_`. -/
def envSource (env : Env) : SourceValues :=
  { domain := env.codeocean_domain, token := env.codeocean_token }

/-- `ConfigFileSettingsSource` / `AWSConfigSettingsSource` over parsed json
contents. -/
def fileSource (c : CredFile) : SourceValues :=
  { domain := c.domain, token := c.token }

/-- pydantic-settings merge: sources earlier in the tuple take per-field
priority over later ones. -/
def mergeSources : List SourceValues → SourceValues
  | [] => {}
  | src :: rest =>
    let merged := mergeSources rest
    { domain := src.domain.orElse (fun _ => merged.domain),
      token := src.token.orElse (fun _ => merged.token) }

/-- The errors `CodeOceanCredentials` construction can raise. -/
inductive CredError where
  | fileNotFound (path : String)
  | secretNotFound (name : String)
  | validationError
  deriving Repr, DecidableEq

/-- Embedding of `CodeOceanCredentials.settings_customise_sources`
(credentials.py lines 209-276): pick the settings sources, in priority
order, from the init kwargs, the environment and the file system; an
explicit `config_file` that is not a file raises `FileNotFoundError`. -/
def settings_customise_sources (fs : FileSystem) (env : Env)
    (init : InitKwargs) : Except CredError (List SourceValues) :=
  match init.aws_secrets_name with
  | some name =>
    match fs.aws_secrets.lookup name with
    | none => Except.error (CredError.secretNotFound name)
    | some c => Except.ok [initSource init, fileSource c]
  | none =>
    match init.config_file with
    | some p =>
      match fs.files.lookup p with
      | none => Except.error (CredError.fileNotFound p)
      | some c => Except.ok [initSource init, fileSource c]
    | none =>
      match fs.files.lookup default_config_path with
      | some c => Except.ok [initSource init, envSource env, fileSource c]
      | none => Except.ok [initSource init, envSource env]

/-- Validated credentials: required `domain` (slash-stripped by the field
validator) and required `token` (its secret value). -/
structure CodeOceanCredentials where
  domain : String
  token : String
  deriving Repr, DecidableEq

/-- pydantic required-field validation plus the `_strip_trailing_slash`
domain validator. -/
def validateCredentials (sv : SourceValues) :
    Except CredError CodeOceanCredentials :=
  match sv.domain, sv.token with
  | some d, some t => Except.ok { domain := stripSlashes d, token := t }
  | _, _ => Except.error CredError.validationError

/-- Constructing `CodeOceanCredentials(...)`: resolve the settings sources,
merge them per-field with earlier sources winning, then validate. -/
def mkCodeOceanCredentials (fs : FileSystem) (env : Env) (init : InitKwargs) :
    Except CredError CodeOceanCredentials :=
  match settings_customise_sources fs env init with
  | Except.error e => Except.error e
  | Except.ok srcs => validateCredentials (mergeSources srcs)

/-- `CodeOceanCredentials.save_credentials_to_file` (credentials.py lines
278-306): write the json object with keys `domain` and `token` at the given
path, replacing what was there. -/
def save_credentials_to_file (c : CodeOceanCredentials) (fs : FileSystem)
    (output_path : String) : FileSystem :=
  { fs with files :=
      (output_path, { domain := some c.domain, token := some c.token }) ::
        fs.files }

/-- Claim C4: constructing `CodeOceanCredentials` with an explicit domain
argument while `CODEOCEAN_DOMAIN` and `CODEOCEAN_TOKEN` are set yields the
explicit domain (slash-stripped by the field validator) and the environment
token: explicit constructor arguments win over environment variables
per-field, and the environment fills every field not given explicitly,
whatever the file system holds. -/
theorem C4_init_wins_env_fills (fs : FileSystem) (ed et d t : String) :
    mkCodeOceanCredentials fs
        { codeocean_domain := some ed, codeocean_token := some et }
        { domain := some d } =
      Except.ok { domain := stripSlashes d, token := et }
    ∧ mkCodeOceanCredentials fs
        { codeocean_domain := some ed, codeocean_token := some et }
        { token := some t } =
      Except.ok { domain := stripSlashes ed, token := t }
    ∧ mkCodeOceanCredentials fs
        { codeocean_domain := some ed, codeocean_token := some et }
        { domain := some d, token := some t } =
      Except.ok { domain := stripSlashes d, token := t }
    ∧ mkCodeOceanCredentials fs
        { codeocean_domain := some ed, codeocean_token := some et } {} =
      Except.ok { domain := stripSlashes ed, token := et } := by
  refine ⟨?_, ?_, ?_, ?_⟩ <;>
  · cases hfs : fs.files.lookup default_config_path <;>
      simp [mkCodeOceanCredentials, settings_customise_sources, hfs,
        initSource, envSource, fileSource, mergeSources, validateCredentials,
        Option.orElse]

/-- Claim C5: constructing `CodeOceanCredentials` with an explicit
`config_file` path that is not a file raises `FileNotFoundError`, whatever
the environment variables and the default credentials file hold: no silent
fallback to another source. -/
theorem C5_explicit_missing_config_file_raises (fs : FileSystem) (env : Env)
    (init : InitKwargs) (p : String) (haws : init.aws_secrets_name = none)
    (hcf : init.config_file = some p) (hmiss : fs.files.lookup p = none) :
    mkCodeOceanCredentials fs env init =
      Except.error (CredError.fileNotFound p) := by
  simp [mkCodeOceanCredentials, settings_customise_sources, haws, hcf, hmiss]

/-- A valid default credentials file's contents. -/
def envFileContents : CredFile :=
  { domain := some "http://env.com", token := some "env-tok" }

/-- A file system holding a valid credentials file at the default path. -/
def fsWithDefaultFile : FileSystem :=
  { files := [(default_config_path, envFileContents)], aws_secrets := [] }

/-- An environment with both `CODEOCEAN_` variables set. -/
def envBothSet : Env :=
  { codeocean_domain := some "http://env.com",
    codeocean_token := some "env-tok" }

/-- Witness for C5: with valid environment variables set and a valid default
credentials file on disk, an explicit missing `config_file` still raises. -/
theorem C5_explicit_missing_config_file_raises_witness :
    fsWithDefaultFile.files.lookup "missing.json" = none
    ∧ mkCodeOceanCredentials fsWithDefaultFile envBothSet
        { config_file := some "missing.json" } =
      Except.error (CredError.fileNotFound "missing.json") :=
  ⟨rfl,
    C5_explicit_missing_config_file_raises fsWithDefaultFile envBothSet
      { config_file := some "missing.json" } "missing.json" rfl rfl rfl⟩

/-- Claim C10: for credentials accepted by `CodeOceanCredentials` (whose
domain is already slash-stripped, second conjunct), saving them to a path
and then constructing `CodeOceanCredentials` with that same path as the
explicit `config_file` yields credentials with the same domain and the same
token secret. -/
theorem C10_save_load_round_trip (c : CodeOceanCredentials) (fs : FileSystem)
    (env : Env) (p : String) (hc : stripSlashes c.domain = c.domain) :
    mkCodeOceanCredentials (save_credentials_to_file c fs p) env
        { config_file := some p } = Except.ok c
    ∧ (∀ (fs₂ : FileSystem) (env₂ : Env) (init₂ : InitKwargs)
        (c₂ : CodeOceanCredentials),
        mkCodeOceanCredentials fs₂ env₂ init₂ = Except.ok c₂ →
        stripSlashes c₂.domain = c₂.domain) := by
  constructor
  · simp [mkCodeOceanCredentials, settings_customise_sources,
      save_credentials_to_file, List.lookup, initSource, fileSource,
      mergeSources, validateCredentials, Option.orElse, hc]
  · intro fs₂ env₂ init₂ c₂ h
    unfold mkCodeOceanCredentials at h
    split at h
    · exact absurd h (by simp)
    · unfold validateCredentials at h
      split at h
      · simp only [Except.ok.injEq] at h
        rw [← h]
        exact stripSlashes_idem _
      · exact absurd h (by simp)

/-- Witness for C10 at concrete credentials, an empty file system and an
empty environment. -/
theorem C10_save_load_round_trip_witness :
    stripSlashes "http://init.com" = "http://init.com"
    ∧ mkCodeOceanCredentials
        (save_credentials_to_file { domain := "http://init.com", token := "t" }
          {} "creds.json")
        {} { config_file := some "creds.json" } =
      Except.ok { domain := "http://init.com", token := "t" } :=
  ⟨by decide,
    (C10_save_load_round_trip { domain := "http://init.com", token := "t" } {}
      {} "creds.json" (by decide)).1⟩

end AindCodeocean
